import Mathlib

/-!
Verification development for fix_clipboard.py, a macOS clipboard monitor
that detects the pattern "image + plain text, no file reference" and
rewrites the clipboard to hold only the image payload.

The pasteboard is modelled as a structure holding the list of content-type
identifiers, an association list of binary payloads keyed by identifier,
and the plain-text payload.  Clipboard access errors are modelled by an
Option-valued input (none = the underlying AppKit call raised).  Python
truthiness of an optional bytes value (None or empty bytes is falsy) is
modelled explicitly by pyTruthy.
-/

namespace ClipboardFixer

/-- AppKit constant NSPasteboardTypeTIFF. -/
def NSPasteboardTypeTIFF : String := "public.tiff"

/-- AppKit constant NSPasteboardTypePNG. -/
def NSPasteboardTypePNG : String := "public.png"

/-- AppKit constant NSPasteboardTypeString (plain text). -/
def NSPasteboardTypeString : String := "public.utf8-plain-text"

/-- AppKit constant NSPasteboardTypeFileURL (modern file reference). -/
def NSPasteboardTypeFileURL : String := "public.file-url"

/-- Legacy file-path identifier, written literally in has_image_and_text. -/
def legacyFilePath : String := "public.file-path"

/-- DEFAULT_POLL_INTERVAL = 1.0 (src/fix_clipboard.py line 31). -/
def DEFAULT_POLL_INTERVAL : ℚ := 1

/-- The general pasteboard: identifier list (pb.types()), binary payloads
keyed by identifier (pb.dataForType_), and the plain-text payload
(pb.stringForType_(NSPasteboardTypeString)). -/
structure Pasteboard where
  types : List String
  data : List (String × List Nat)
  text : Option String
deriving Repr, DecidableEq

/-- pb.dataForType_(t): the binary payload stored under identifier t. -/
def Pasteboard.dataForType (pb : Pasteboard) (t : String) : Option (List Nat) :=
  (pb.data.find? (fun e => e.1 == t)).map (fun e => e.2)

/-- pb.clearContents(): discards every identifier and payload. -/
def Pasteboard.clearContents (_pb : Pasteboard) : Pasteboard :=
  ⟨[], [], none⟩

/-- pb.setData_forType_(d, t): writes binary payload d under identifier t,
registering t among the identifiers. -/
def Pasteboard.setData_forType (pb : Pasteboard) (d : List Nat) (t : String) : Pasteboard :=
  { types := if pb.types.contains t then pb.types else pb.types ++ [t]
    data := pb.data.filter (fun e => e.1 != t) ++ [(t, d)]
    text := pb.text }

/-- Python truthiness of an optional bytes value: None and empty bytes are
falsy (PyObjC bridges NSData with a length, so `not data` is true exactly
when data is None or empty). -/
def pyTruthy : Option (List Nat) → Bool
  | none => false
  | some b => !b.isEmpty

/-- get_clipboard_contents (src lines 45-69): returns (types, plain text);
the try/except turns any underlying access error (modelled by a none input)
into the pair (None, None). -/
def get_clipboard_contents : Option Pasteboard → Option (List String) × Option String
  | none => (none, none)
  | some pb => (some pb.types, pb.text)

/-- has_image_and_text (src lines 71-106): `if not types: return False`,
then image = TIFF or PNG present, text = plain-text identifier present,
file = modern file-URL or legacy file-path present; result is
image AND text AND NOT file. -/
def has_image_and_text (types : Option (List String)) : Bool :=
  match types with
  | none => false
  | some ts =>
    if ts.isEmpty then false
    else
      let has_image := decide (NSPasteboardTypeTIFF ∈ ts) || decide (NSPasteboardTypePNG ∈ ts)
      let has_text := decide (NSPasteboardTypeString ∈ ts)
      let has_file := decide (NSPasteboardTypeFileURL ∈ ts) || decide (legacyFilePath ∈ ts)
      has_image && has_text && !has_file

/-- copy_image_only (src lines 108-156): reads TIFF data, falls back to PNG
when the TIFF read is falsy, and when image data was found clears the whole
pasteboard and writes back the single saved (type, data) pair, returning
True; otherwise leaves the pasteboard alone and returns False. -/
def copy_image_only (pb : Pasteboard) : Pasteboard × Bool :=
  let tiff := pb.dataForType NSPasteboardTypeTIFF
  let image_data := if pyTruthy tiff then tiff else pb.dataForType NSPasteboardTypePNG
  let image_type := if pyTruthy tiff then NSPasteboardTypeTIFF else NSPasteboardTypePNG
  if pyTruthy image_data then
    let data_to_write := [(image_type, image_data.getD [])]
    let cleared := pb.clearContents
    let written := data_to_write.foldl (fun p e => p.setData_forType e.2 e.1) cleared
    (written, true)
  else
    (pb, false)

/-- The loop's persistent state: last_types and last_plain_text
(src lines 171-172), both initially None. -/
structure LoopState where
  last_types : Option (List String)
  last_plain_text : Option String
deriving Repr, DecidableEq

/-- Initial loop state (src lines 171-172). -/
def initialState : LoopState := ⟨none, none⟩

/-- The decision core of one loop iteration (src lines 178-207), given the
pair returned by get_clipboard_contents: clipboard_changed is structural
inequality of types or plain text against the stored state; the corrector
is invoked iff changed AND the read succeeded AND the pattern matches;
last_types/last_plain_text are updated iff the read succeeded.  Returns
(new state, corrector invoked). -/
def tick_decision (st : LoopState) (current_types : Option (List String))
    (current_plain_text : Option String) : LoopState × Bool :=
  let clipboard_changed : Bool :=
    decide (current_types ≠ st.last_types) || decide (current_plain_text ≠ st.last_plain_text)
  let invoked : Bool :=
    clipboard_changed && current_types.isSome && has_image_and_text current_types
  let newState : LoopState :=
    if current_types.isSome then ⟨current_types, current_plain_text⟩ else st
  (newState, invoked)

/-- Feeding a sequence of read results through the loop, recording for each
tick whether the corrector was invoked. -/
def fires_list : LoopState → List (Option (List String) × Option String) → List Bool
  | _, [] => []
  | st, r :: rs =>
    let d := tick_decision st r.1 r.2
    d.2 :: fires_list d.1 rs

/-- Outcome of one full tick: new loop state, pasteboard afterwards,
whether copy_image_only was invoked, and the seconds slept. -/
structure TickResult where
  state : LoopState
  board : Pasteboard
  invoked : Bool
  slept : ℚ
deriving Repr, DecidableEq

/-- One iteration of the while-loop body of main (src lines 175-220) against
a pasteboard pb, with read_ok = false modelling a failed AppKit access
inside get_clipboard_contents.  Both get_clipboard_contents and
copy_image_only catch their exceptions internally, so the body itself never
raises on a failed read and always reaches time.sleep(poll_interval)
(line 210); the except-Exception branch with its longer sleep (line 220) is
reachable only when the body raises. -/
def main_tick (st : LoopState) (pb : Pasteboard) (read_ok : Bool)
    (poll_interval : ℚ) : TickResult :=
  let r := get_clipboard_contents (if read_ok then some pb else none)
  let d := tick_decision st r.1 r.2
  let pbAfter := if d.2 then (copy_image_only pb).1 else pb
  ⟨d.1, pbAfter, d.2, poll_interval⟩

/-- The sleep performed by the except-Exception branch of main
(src line 220): a fixed 5x multiple of the poll interval. -/
def error_backoff_sleep (poll_interval : ℚ) : ℚ :=
  poll_interval * 5

/-- Parsed command-line arguments (src lines 226-247): a debug flag and the
poll interval, a float defaulting to DEFAULT_POLL_INTERVAL when the option
is absent.  argparse performs no bounds check on the value. -/
structure Args where
  debug : Bool
  interval : ℚ
deriving Repr, DecidableEq

/-- argparse parsing of the command line (src lines 228-247). -/
def parse_args (debugFlag : Bool) (intervalArg : Option ℚ) : Args :=
  ⟨debugFlag, intervalArg.getD DEFAULT_POLL_INTERVAL⟩

/-- The script entry point after parsing (src lines 247-255): apart from
optionally raising the log level, it unconditionally calls
main(poll_interval=args.interval); the value returned here is the interval
the monitor loop is started with. -/
def script_entry (debugFlag : Bool) (intervalArg : Option ℚ) : ℚ :=
  (parse_args debugFlag intervalArg).interval

/-- Normal form of has_image_and_text on a successful read: the early
return on an empty list coincides with the boolean formula, whose
conjuncts are all false there. -/
theorem has_image_and_text_eq (ts : List String) :
    has_image_and_text (some ts) =
      ((decide (NSPasteboardTypeTIFF ∈ ts) || decide (NSPasteboardTypePNG ∈ ts))
        && decide (NSPasteboardTypeString ∈ ts)
        && !(decide (NSPasteboardTypeFileURL ∈ ts) || decide (legacyFilePath ∈ ts))) := by
  cases ts with
  | nil => simp [has_image_and_text]
  | cons a l => simp [has_image_and_text]

/-- C1: has_image_and_text is true iff the identifier list contains an
image identifier (TIFF or PNG) and the plain-text identifier and no
file-reference identifier (file-URL or legacy file-path); an absent
(None) or empty list yields false; and the result depends only on set
membership, so order and duplicates are irrelevant. -/
theorem C1_matches_pattern_characterization :
    (∀ ts : List String,
      has_image_and_text (some ts) = true ↔
        ((NSPasteboardTypeTIFF ∈ ts ∨ NSPasteboardTypePNG ∈ ts)
          ∧ NSPasteboardTypeString ∈ ts
          ∧ ¬(NSPasteboardTypeFileURL ∈ ts ∨ legacyFilePath ∈ ts)))
    ∧ has_image_and_text none = false
    ∧ has_image_and_text (some []) = false
    ∧ (∀ ts ts' : List String, (∀ t : String, t ∈ ts ↔ t ∈ ts') →
        has_image_and_text (some ts) = has_image_and_text (some ts')) := by
  refine ⟨?_, rfl, rfl, ?_⟩
  · intro ts
    rw [has_image_and_text_eq]
    simp [Bool.and_eq_true, Bool.or_eq_true, decide_eq_true_iff]
    tauto
  · intro ts ts' h
    rw [has_image_and_text_eq, has_image_and_text_eq]
    have e1 : decide (NSPasteboardTypeTIFF ∈ ts) = decide (NSPasteboardTypeTIFF ∈ ts') :=
      decide_eq_decide.mpr (h _)
    have e2 : decide (NSPasteboardTypePNG ∈ ts) = decide (NSPasteboardTypePNG ∈ ts') :=
      decide_eq_decide.mpr (h _)
    have e3 : decide (NSPasteboardTypeString ∈ ts) = decide (NSPasteboardTypeString ∈ ts') :=
      decide_eq_decide.mpr (h _)
    have e4 : decide (NSPasteboardTypeFileURL ∈ ts) = decide (NSPasteboardTypeFileURL ∈ ts') :=
      decide_eq_decide.mpr (h _)
    have e5 : decide (legacyFilePath ∈ ts) = decide (legacyFilePath ∈ ts') :=
      decide_eq_decide.mpr (h _)
    rw [e1, e2, e3, e4, e5]

/-- Witness for C1: the characterization applied at the concrete list
holding TIFF and plain text, and the membership-invariance conjunct at a
reordered duplicate-bearing copy of that list. -/
theorem C1_witness :
    (has_image_and_text (some [NSPasteboardTypeTIFF, NSPasteboardTypeString]) = true
      ↔ ((NSPasteboardTypeTIFF ∈ [NSPasteboardTypeTIFF, NSPasteboardTypeString]
            ∨ NSPasteboardTypePNG ∈ [NSPasteboardTypeTIFF, NSPasteboardTypeString])
          ∧ NSPasteboardTypeString ∈ [NSPasteboardTypeTIFF, NSPasteboardTypeString]
          ∧ ¬(NSPasteboardTypeFileURL ∈ [NSPasteboardTypeTIFF, NSPasteboardTypeString]
              ∨ legacyFilePath ∈ [NSPasteboardTypeTIFF, NSPasteboardTypeString])))
    ∧ has_image_and_text (some [NSPasteboardTypeTIFF, NSPasteboardTypeString])
        = has_image_and_text
            (some [NSPasteboardTypeString, NSPasteboardTypeTIFF, NSPasteboardTypeTIFF]) :=
  ⟨C1_matches_pattern_characterization.1 _,
    C1_matches_pattern_characterization.2.2.2 _ _ (by intro t; simp; tauto)⟩

/-- When the TIFF read is truthy, copy_image_only clears the pasteboard and
writes back exactly the TIFF payload. -/
theorem copy_image_only_tiff (pb : Pasteboard)
    (h : pyTruthy (pb.dataForType NSPasteboardTypeTIFF) = true) :
    copy_image_only pb =
      (⟨[NSPasteboardTypeTIFF],
        [(NSPasteboardTypeTIFF, (pb.dataForType NSPasteboardTypeTIFF).getD [])],
        none⟩, true) := by
  simp [copy_image_only, h, Pasteboard.clearContents, Pasteboard.setData_forType]

/-- When the TIFF read is falsy and the PNG read is truthy, copy_image_only
clears the pasteboard and writes back exactly the PNG payload. -/
theorem copy_image_only_png (pb : Pasteboard)
    (h : pyTruthy (pb.dataForType NSPasteboardTypeTIFF) = false)
    (h2 : pyTruthy (pb.dataForType NSPasteboardTypePNG) = true) :
    copy_image_only pb =
      (⟨[NSPasteboardTypePNG],
        [(NSPasteboardTypePNG, (pb.dataForType NSPasteboardTypePNG).getD [])],
        none⟩, true) := by
  simp [copy_image_only, h, h2, Pasteboard.clearContents, Pasteboard.setData_forType]

/-- When both image reads are falsy, copy_image_only touches nothing and
reports failure. -/
theorem copy_image_only_notfound (pb : Pasteboard)
    (h : pyTruthy (pb.dataForType NSPasteboardTypeTIFF) = false)
    (h2 : pyTruthy (pb.dataForType NSPasteboardTypePNG) = false) :
    copy_image_only pb = (pb, false) := by
  simp [copy_image_only, h, h2]

/-- A nonempty bytes value is truthy. -/
theorem pyTruthy_some_of_ne (b : List Nat) (h : b ≠ []) :
    pyTruthy (some b) = true := by
  cases b with
  | nil => exact absurd rfl h
  | cons x l => rfl

/-- C2: on a clipboard holding TIFF bytes B (with plain text present and no
file-reference identifier), copy_image_only succeeds, and the resulting
clipboard holds exactly the single identifier TIFF, with the payload under
TIFF equal to B and no plain text: everything else was cleared before the
single write-back. -/
theorem C2_correction_tiff_result (pb : Pasteboard) (B : List Nat)
    (hB : pb.dataForType NSPasteboardTypeTIFF = some B) (hne : B ≠ [])
    (_htext : pb.text.isSome = true)
    (_hfile : NSPasteboardTypeFileURL ∉ pb.types ∧ legacyFilePath ∉ pb.types) :
    (copy_image_only pb).2 = true
    ∧ (copy_image_only pb).1.types = [NSPasteboardTypeTIFF]
    ∧ (copy_image_only pb).1.data = [(NSPasteboardTypeTIFF, B)]
    ∧ (copy_image_only pb).1.dataForType NSPasteboardTypeTIFF = some B
    ∧ (copy_image_only pb).1.text = none := by
  have ht : pyTruthy (pb.dataForType NSPasteboardTypeTIFF) = true := by
    rw [hB]; exact pyTruthy_some_of_ne B hne
  rw [copy_image_only_tiff pb ht, hB]
  refine ⟨rfl, rfl, rfl, ?_, rfl⟩
  simp [Pasteboard.dataForType]

/-- A concrete pasteboard in the problematic state: TIFF bytes, a URL as
plain text, no file reference. -/
def pbSafariCopy : Pasteboard :=
  ⟨[NSPasteboardTypeTIFF, NSPasteboardTypeString],
   [(NSPasteboardTypeTIFF, [1, 2, 3])],
   some "https://example.com"⟩

/-- Witness for C2: the correction theorem applied to the concrete Safari
copy state with payload [1, 2, 3]. -/
theorem C2_witness :
    (copy_image_only pbSafariCopy).2 = true
    ∧ (copy_image_only pbSafariCopy).1.types = [NSPasteboardTypeTIFF]
    ∧ (copy_image_only pbSafariCopy).1.data = [(NSPasteboardTypeTIFF, [1, 2, 3])]
    ∧ (copy_image_only pbSafariCopy).1.dataForType NSPasteboardTypeTIFF = some [1, 2, 3]
    ∧ (copy_image_only pbSafariCopy).1.text = none :=
  C2_correction_tiff_result pbSafariCopy [1, 2, 3] (by decide) (by decide) (by decide)
    ⟨by decide, by decide⟩

/-- C5: extraction prefers TIFF — whenever the TIFF read is truthy the
correction succeeds writing the TIFF payload (PNG is not consulted); when
the TIFF read is falsy but PNG holds bytes B2, the correction succeeds
writing B2 under the PNG identifier; and the operation reports failure
exactly when both the TIFF and the PNG reads are falsy (no image data
present in the Python-truthiness sense). -/
theorem C5_extraction_order_and_fallback :
    (∀ pb : Pasteboard, pyTruthy (pb.dataForType NSPasteboardTypeTIFF) = true →
      (copy_image_only pb).2 = true
      ∧ (copy_image_only pb).1.types = [NSPasteboardTypeTIFF]
      ∧ (copy_image_only pb).1.dataForType NSPasteboardTypeTIFF
          = pb.dataForType NSPasteboardTypeTIFF)
    ∧ (∀ pb : Pasteboard, ∀ B2 : List Nat,
        pyTruthy (pb.dataForType NSPasteboardTypeTIFF) = false →
        pb.dataForType NSPasteboardTypePNG = some B2 → B2 ≠ [] →
        (copy_image_only pb).2 = true
        ∧ (copy_image_only pb).1.types = [NSPasteboardTypePNG]
        ∧ (copy_image_only pb).1.dataForType NSPasteboardTypePNG = some B2)
    ∧ (∀ pb : Pasteboard,
        (copy_image_only pb).2 = false ↔
          (pyTruthy (pb.dataForType NSPasteboardTypeTIFF) = false
            ∧ pyTruthy (pb.dataForType NSPasteboardTypePNG) = false)) := by
  refine ⟨?_, ?_, ?_⟩
  · intro pb h
    rw [copy_image_only_tiff pb h]
    refine ⟨rfl, rfl, ?_⟩
    cases hd : pb.dataForType NSPasteboardTypeTIFF with
    | none => rw [hd] at h; exact absurd h (by simp [pyTruthy])
    | some b => simp [Pasteboard.dataForType]
  · intro pb B2 h hPng hne
    have h2 : pyTruthy (pb.dataForType NSPasteboardTypePNG) = true := by
      rw [hPng]; exact pyTruthy_some_of_ne B2 hne
    rw [copy_image_only_png pb h h2, hPng]
    exact ⟨rfl, rfl, by simp [Pasteboard.dataForType]⟩
  · intro pb
    constructor
    · intro hfail
      by_cases h : pyTruthy (pb.dataForType NSPasteboardTypeTIFF) = true
      · rw [copy_image_only_tiff pb h] at hfail; exact absurd hfail (by simp)
      · rw [Bool.not_eq_true] at h
        by_cases h2 : pyTruthy (pb.dataForType NSPasteboardTypePNG) = true
        · rw [copy_image_only_png pb h h2] at hfail; exact absurd hfail (by simp)
        · rw [Bool.not_eq_true] at h2; exact ⟨h, h2⟩
    · intro ⟨h, h2⟩
      rw [copy_image_only_notfound pb h h2]

/-- A concrete pasteboard holding only PNG image data together with text. -/
def pbPngOnly : Pasteboard :=
  ⟨[NSPasteboardTypePNG, NSPasteboardTypeString],
   [(NSPasteboardTypePNG, [7, 7])],
   some "https://example.com"⟩

/-- Witness for C5: the PNG fallback conjunct applied at a concrete
pasteboard that has no TIFF data but PNG bytes [7, 7]. -/
theorem C5_witness :
    (copy_image_only pbPngOnly).2 = true
    ∧ (copy_image_only pbPngOnly).1.types = [NSPasteboardTypePNG]
    ∧ (copy_image_only pbPngOnly).1.dataForType NSPasteboardTypePNG = some [7, 7] :=
  C5_extraction_order_and_fallback.2.1 pbPngOnly [7, 7] (by decide) (by decide) (by decide)

/-- C6: when neither image read is truthy (the NotFound race), the
correction returns before any clear or write, so the pasteboard is
returned unchanged; at loop level the tick leaves the clipboard exactly as
it was and still sleeps the normal interval (no crash, no retry: the tick
body evaluates copy_image_only once and moves on). -/
theorem C6_notfound_tick_untouched (st : LoopState) (pb : Pasteboard) (i : ℚ)
    (h : pyTruthy (pb.dataForType NSPasteboardTypeTIFF) = false)
    (h2 : pyTruthy (pb.dataForType NSPasteboardTypePNG) = false) :
    copy_image_only pb = (pb, false)
    ∧ (main_tick st pb true i).board = pb
    ∧ (main_tick st pb true i).slept = i := by
  refine ⟨copy_image_only_notfound pb h h2, ?_, rfl⟩
  simp [main_tick, copy_image_only_notfound pb h h2]

/-- A pasteboard matching the pattern by identifiers but whose image data
has vanished (the detect-extract race). -/
def pbVanishedImage : Pasteboard :=
  ⟨[NSPasteboardTypeTIFF, NSPasteboardTypeString],
   [],
   some "https://example.com"⟩

/-- Witness for C6: the untouched-clipboard theorem applied at the initial
state and a pasteboard whose image payloads are gone. -/
theorem C6_witness :
    copy_image_only pbVanishedImage = (pbVanishedImage, false)
    ∧ (main_tick initialState pbVanishedImage true 1).board = pbVanishedImage
    ∧ (main_tick initialState pbVanishedImage true 1).slept = 1 :=
  C6_notfound_tick_untouched initialState pbVanishedImage 1 (by decide) (by decide)

/-- C4: a successful correction leaves a clipboard whose identifier list
fails has_image_and_text (it holds a single image identifier and no
plain-text identifier), so a later tick observing the corrected state never
invokes the corrector again, whatever the stored loop state. -/
theorem C4_corrected_state_not_retriggered (pb : Pasteboard)
    (h : (copy_image_only pb).2 = true) :
    has_image_and_text (some (copy_image_only pb).1.types) = false
    ∧ ∀ st : LoopState,
        (tick_decision st (some (copy_image_only pb).1.types)
          (copy_image_only pb).1.text).2 = false := by
  have hpat : has_image_and_text (some (copy_image_only pb).1.types) = false := by
    by_cases ht : pyTruthy (pb.dataForType NSPasteboardTypeTIFF) = true
    · rw [copy_image_only_tiff pb ht]
      show has_image_and_text (some [NSPasteboardTypeTIFF]) = false
      decide
    · rw [Bool.not_eq_true] at ht
      by_cases hp : pyTruthy (pb.dataForType NSPasteboardTypePNG) = true
      · rw [copy_image_only_png pb ht hp]
        show has_image_and_text (some [NSPasteboardTypePNG]) = false
        decide
      · rw [Bool.not_eq_true] at hp
        rw [copy_image_only_notfound pb ht hp] at h
        exact absurd h (by simp)
  refine ⟨hpat, ?_⟩
  intro st
  simp [tick_decision, hpat]

/-- Witness for C4: the no-retrigger theorem applied to the result of
correcting a concrete two-payload pasteboard (TIFF bytes and text). -/
theorem C4_witness :
    has_image_and_text
      (some (copy_image_only
        ⟨[NSPasteboardTypeTIFF, NSPasteboardTypeString],
         [(NSPasteboardTypeTIFF, [5])], some "u"⟩).1.types) = false
    ∧ ∀ st : LoopState,
        (tick_decision st
          (some (copy_image_only
            ⟨[NSPasteboardTypeTIFF, NSPasteboardTypeString],
             [(NSPasteboardTypeTIFF, [5])], some "u"⟩).1.types)
          (copy_image_only
            ⟨[NSPasteboardTypeTIFF, NSPasteboardTypeString],
             [(NSPasteboardTypeTIFF, [5])], some "u"⟩).1.text).2 = false :=
  C4_corrected_state_not_retriggered _ (by decide)

/-- After a successful read the loop state stores exactly the snapshot just
observed. -/
theorem tick_decision_updates (st : LoopState) (ts : List String) (cpt : Option String) :
    (tick_decision st (some ts) cpt).1 = ⟨some ts, cpt⟩ := by
  simp [tick_decision]

/-- A tick whose snapshot equals the stored state never invokes the
corrector. -/
theorem tick_decision_same_state (ts : List String) (cpt : Option String) :
    (tick_decision ⟨some ts, cpt⟩ (some ts) cpt).2 = false := by
  simp [tick_decision]

/-- Once the state stores a snapshot, replaying that same snapshot any
number of times invokes the corrector on no tick at all. -/
theorem fires_list_stable (ts : List String) (cpt : Option String) (n : Nat) :
    fires_list ⟨some ts, cpt⟩ (List.replicate n (some ts, cpt))
      = List.replicate n false := by
  induction n with
  | zero => rfl
  | succ k ih =>
    rw [List.replicate_succ]
    simp only [fires_list]
    rw [tick_decision_same_state, tick_decision_updates, ih, List.replicate_succ]

/-- C3: the corrector is invoked only on a tick whose successfully read
snapshot differs (by structural equality of identifier list and text) from
the stored lastSnapshot and matches the pattern; replaying the same
snapshot on the next tick never re-invokes it; and over any run of n ticks
fed one identical snapshot the corrector is invoked at most once, not once
per tick. -/
theorem C3_change_detection_debounce :
    (∀ (st : LoopState) (ct : Option (List String)) (cpt : Option String),
      (tick_decision st ct cpt).2 = true →
        (ct ≠ st.last_types ∨ cpt ≠ st.last_plain_text)
        ∧ ct.isSome = true ∧ has_image_and_text ct = true)
    ∧ (∀ (st : LoopState) (ts : List String) (cpt : Option String),
        (tick_decision (tick_decision st (some ts) cpt).1 (some ts) cpt).2 = false)
    ∧ (∀ (st : LoopState) (ts : List String) (cpt : Option String) (n : Nat),
        (fires_list st (List.replicate n (some ts, cpt))).count true ≤ 1) := by
  refine ⟨?_, ?_, ?_⟩
  · intro st ct cpt h
    simp only [tick_decision, Bool.and_eq_true, Bool.or_eq_true,
      decide_eq_true_iff] at h
    exact ⟨h.1.1, h.1.2, h.2⟩
  · intro st ts cpt
    rw [tick_decision_updates]
    exact tick_decision_same_state ts cpt
  · intro st ts cpt n
    cases n with
    | zero => simp [fires_list]
    | succ k =>
      rw [List.replicate_succ]
      simp only [fires_list]
      rw [tick_decision_updates, fires_list_stable]
      rw [List.count_cons, List.count_replicate]
      cases (tick_decision st (some ts, cpt).1 (some ts, cpt).2).2 <;> simp

/-- Witness for C3: the only-if-changed-and-matching conjunct applied at
the initial state and a snapshot holding TIFF plus plain text. -/
theorem C3_witness :
    ((some [NSPasteboardTypeTIFF, NSPasteboardTypeString] : Option (List String))
        ≠ initialState.last_types
      ∨ (none : Option String) ≠ initialState.last_plain_text)
    ∧ (some [NSPasteboardTypeTIFF, NSPasteboardTypeString] : Option (List String)).isSome = true
    ∧ has_image_and_text (some [NSPasteboardTypeTIFF, NSPasteboardTypeString]) = true :=
  C3_change_detection_debounce.1 initialState
    (some [NSPasteboardTypeTIFF, NSPasteboardTypeString]) none (by decide)

/-- C8: a freshly read snapshot carrying an image identifier, the
plain-text identifier AND a file-reference identifier fails the pattern, so
the tick invokes no corrective action and the clipboard after the tick is
exactly the clipboard before it. -/
theorem C8_file_copy_untouched (st : LoopState) (pb : Pasteboard) (i : ℚ)
    (_himg : NSPasteboardTypeTIFF ∈ pb.types ∨ NSPasteboardTypePNG ∈ pb.types)
    (_htext : NSPasteboardTypeString ∈ pb.types)
    (hfile : NSPasteboardTypeFileURL ∈ pb.types ∨ legacyFilePath ∈ pb.types) :
    (main_tick st pb true i).invoked = false
    ∧ (main_tick st pb true i).board = pb := by
  have hf : (decide (NSPasteboardTypeFileURL ∈ pb.types)
      || decide (legacyFilePath ∈ pb.types)) = true := by
    rcases hfile with h | h <;> simp [h]
  have hpat : has_image_and_text (some pb.types) = false := by
    rw [has_image_and_text_eq, hf]
    simp
  constructor <;>
    simp [main_tick, get_clipboard_contents, tick_decision, hpat]

/-- Witness for C8: the no-action theorem applied at a concrete Finder-style
snapshot holding TIFF, plain text and a file URL. -/
theorem C8_witness :
    (main_tick initialState
      ⟨[NSPasteboardTypeTIFF, NSPasteboardTypeString, NSPasteboardTypeFileURL],
       [(NSPasteboardTypeTIFF, [9])], some "file"⟩ true 1).invoked = false
    ∧ (main_tick initialState
      ⟨[NSPasteboardTypeTIFF, NSPasteboardTypeString, NSPasteboardTypeFileURL],
       [(NSPasteboardTypeTIFF, [9])], some "file"⟩ true 1).board
      = ⟨[NSPasteboardTypeTIFF, NSPasteboardTypeString, NSPasteboardTypeFileURL],
         [(NSPasteboardTypeTIFF, [9])], some "file"⟩ :=
  C8_file_copy_untouched initialState _ 1 (Or.inl (by decide)) (by decide)
    (Or.inl (by decide))

/-- C10: get_clipboard_contents is total by construction; an access error
yields exactly (None, None), a successful read yields (Some types, text),
so failure is signalled precisely by the first component being None, and a
clipboard with no plain text reads as (Some types, None) — distinct from
failure. -/
theorem C10_get_clipboard_contents_total :
    get_clipboard_contents none = (none, none)
    ∧ (∀ pb : Pasteboard, get_clipboard_contents (some pb) = (some pb.types, pb.text))
    ∧ (∀ r : Option Pasteboard, (get_clipboard_contents r).1 = none ↔ r = none)
    ∧ (∀ pb : Pasteboard, pb.text = none →
        (get_clipboard_contents (some pb)).1.isSome = true
        ∧ (get_clipboard_contents (some pb)).2 = none) := by
  refine ⟨rfl, fun pb => rfl, ?_, ?_⟩
  · intro r
    cases r <;> simp [get_clipboard_contents]
  · intro pb h
    exact ⟨rfl, h⟩

/-- Witness for C10: the no-text conjunct applied at a concrete textless
image-only pasteboard. -/
theorem C10_witness :
    (get_clipboard_contents (some ⟨[NSPasteboardTypeTIFF],
      [(NSPasteboardTypeTIFF, [4])], none⟩)).1.isSome = true
    ∧ (get_clipboard_contents (some ⟨[NSPasteboardTypeTIFF],
      [(NSPasteboardTypeTIFF, [4])], none⟩)).2 = none :=
  C10_get_clipboard_contents_total.2.2.2 _ rfl

/-- C7 counterexample: a tick whose clipboard read fails sleeps the NORMAL
poll interval (here 1 second), not the longer backoff (5 seconds); the
failed read is caught inside get_clipboard_contents and never reaches the
except branch of main that performs the 5x sleep.  The claim that such a
tick continues only after a longer backoff is therefore false; only the
retained-lastSnapshot half holds. -/
theorem C7_counterexample :
    (main_tick initialState ⟨[], [], none⟩ false 1).slept = 1
    ∧ error_backoff_sleep 1 = 5
    ∧ (main_tick initialState ⟨[], [], none⟩ false 1).slept ≠ error_backoff_sleep 1
    ∧ (main_tick initialState ⟨[], [], none⟩ false 1).state = initialState := by
  refine ⟨rfl, by norm_num [error_backoff_sleep], ?_, rfl⟩
  show (1 : ℚ) ≠ error_backoff_sleep 1
  norm_num [error_backoff_sleep]

/-- C7 amended: on a tick whose clipboard read fails, lastSnapshot is
retained unchanged and the corrector is not invoked, but the loop sleeps
the normal poll interval before the next tick; the 5x backoff sleep exists
only in the except branch of main, reachable solely when the tick body
itself raises — which a failed read does not cause, being caught inside
get_clipboard_contents. -/
theorem C7_failed_read_normal_sleep (st : LoopState) (pb : Pasteboard) (i : ℚ) :
    (main_tick st pb false i).state = st
    ∧ (main_tick st pb false i).invoked = false
    ∧ (main_tick st pb false i).board = pb
    ∧ (main_tick st pb false i).slept = i
    ∧ error_backoff_sleep i = i * 5 := by
  refine ⟨rfl, ?_, ?_, rfl, rfl⟩ <;>
    simp [main_tick, get_clipboard_contents, tick_decision]

/-- C9 counterexample: the script performs no positivity check on the
interval option — parsed value -1 is handed to the monitor loop as is, so
the program does proceed to run the loop with a non-positive interval. -/
theorem C9_counterexample :
    script_entry false (some (-1)) = -1
    ∧ ¬(0 < script_entry false (some (-1))) := by
  constructor
  · rfl
  · show ¬(0 < script_entry false (some (-1)))
    norm_num [script_entry, parse_args]

/-- C9 amended: the poll-interval option is numeric with default
DEFAULT_POLL_INTERVAL = 1.0; when absent the loop runs with the default,
and any supplied value — positive or not — is passed through to the
monitor loop without validation. -/
theorem C9_interval_default_unvalidated :
    DEFAULT_POLL_INTERVAL = 1
    ∧ (∀ d : Bool, script_entry d none = DEFAULT_POLL_INTERVAL)
    ∧ (∀ (d : Bool) (x : ℚ), script_entry d (some x) = x) :=
  ⟨rfl, fun _ => rfl, fun _ _ => rfl⟩

end ClipboardFixer
